import Mathlib

/-!
Vizeoshoppi: the effect-state engine of `main.cpp`.

A shallow embedding of the settings record, the key-command interpreter
(`keyPressed`), the slider callback registered by `init`, and the per-frame
pipeline (`processFrame`) of `src/main.cpp`, followed by theorems about them.

Modelling conventions.
* `bool` is `Bool`.
* `unsigned short` (16 bit) and `unsigned int` (32 bit) are `Nat`; every
  operation that C++ defines modulo `2^16` or `2^32` carries the explicit `%`.
* `int` (32 bit) is `Int`.  The `int` results of the key commands that can
  leave the range of the type (`value++`, `value--`, `-trackBarValue`) are
  wrapped into it (`wrapInt`), the two's complement overflow of the platforms
  the program runs on.  In `processFrame` the two `int` results are taken in
  the integers: the increment of the blur loop is applied to even values only,
  hence below the largest `int`, and `abs(settings.rotate)` differs from the
  `int` result at `rotate = -2147483648` only.
* The object representation used by `memset` follows the usual ABI of the
  platforms OpenCV runs on: `sizeof(bool) = 1`, `sizeof(short) = 2`,
  `sizeof(int) = 4`, every member aligned to its size, little-endian bytes.
* OpenCV is a library, not code of this repository: its image operators are
  the fields of a record `OpenCV Mat` that `processFrame` is parameterised by.
* Where the spec fixes an operator pixel by pixel (rotation by a right angle,
  the two mirrors, the saturating tone adjustment, the conversion between three
  channels and one) the operator is also given on 8-bit frames, `OpenCV.pixels`;
  the other operators stay parameters.  Their channel counts are the subject of
  `ChannelContract`.
-/

namespace Vizeoshoppi

/-! ## The settings record -/

/-- The record `struct Settings` (main.cpp, lines 16 to 31), with the default
member initialisers of the source. -/
structure Settings where
  exit : Bool := false
  grayscale : Bool := false
  recording : Bool := false
  negative : Bool := false
  blur : Nat := 0
  rotate : Int := 0
  mirrorVertically : Nat := 0
  mirrorHorizontally : Nat := 0
  canny : Nat := 0
  sobel : Nat := 0
  brightess : Int := 0
  scale : Nat := 1
  contrast : Nat := 1
  trackBarValue : Int := 1
  deriving DecidableEq, Repr

/-- The settings a freshly constructed `Settings settings;` holds (main.cpp, line 191). -/
def Settings.fresh : Settings := {}

/-! ## Object representation of `Settings` -/

/-- Size in bytes of a `bool`. -/
def sizeofBool : Nat := 1

/-- Size in bytes of an `unsigned short`. -/
def sizeofShort : Nat := 2

/-- Size in bytes of an `int` and of an `unsigned int`. -/
def sizeofInt : Nat := 4

/-- The first multiple of `align` that is at least `off`. -/
def alignUp (off align : Nat) : Nat := (off + align - 1) / align * align

/-- The `n` little-endian bytes of `v` (that is, of `v` modulo `256^n`). -/
def leBytes : Nat → Nat → List Nat
  | 0, _ => []
  | n + 1, v => v % 256 :: leBytes n (v / 256)

/-- The number a list of little-endian bytes stands for. -/
def leValue : List Nat → Nat
  | [] => 0
  | b :: bs => b + 256 * leValue bs

/-- Bytes of a `bool` member. -/
def encodeBool (b : Bool) : List Nat := leBytes sizeofBool (if b then 1 else 0)

/-- Value of a `bool` member read from its bytes. -/
def decodeBool (bytes : List Nat) : Bool := leValue bytes != 0

/-- Bytes of an `unsigned short` member. -/
def encodeUShort (v : Nat) : List Nat := leBytes sizeofShort v

/-- Bytes of an `unsigned int` member. -/
def encodeUInt (v : Nat) : List Nat := leBytes sizeofInt v

/-- Bytes of an `int` member, two's complement. -/
def encodeInt (v : Int) : List Nat := leBytes sizeofInt (v % (256 ^ sizeofInt : Nat)).toNat

/-- Value of an `int` member read from its bytes, two's complement. -/
def decodeInt (bytes : List Nat) : Int :=
  let u := leValue bytes
  if u < 256 ^ sizeofInt / 2 then (u : Int) else (u : Int) - (256 ^ sizeofInt : Nat)

/-- Lay a member out after the bytes written so far: padding up to the member's
alignment (its size), then its bytes. -/
def place (mem bytes : List Nat) : List Nat :=
  mem ++ List.replicate (alignUp mem.length bytes.length - mem.length) 0 ++ bytes

/-- Bytes of a member of size `size` found at the first aligned offset from
`off` on, with the offset just past it. -/
def member (mem : List Nat) (off size : Nat) : List Nat × Nat :=
  let start := alignUp off size
  ((mem.drop start).take size, start + size)

/-- The object representation of a `Settings` value: its members in declaration
order, each at its aligned offset, and the tail padding up to the alignment of
`int`. -/
def Settings.toBytes (s : Settings) : List Nat :=
  let mem : List Nat := []
  let mem := place mem (encodeBool s.exit)
  let mem := place mem (encodeBool s.grayscale)
  let mem := place mem (encodeBool s.recording)
  let mem := place mem (encodeBool s.negative)
  let mem := place mem (encodeUShort s.blur)
  let mem := place mem (encodeInt s.rotate)
  let mem := place mem (encodeUShort s.mirrorVertically)
  let mem := place mem (encodeUShort s.mirrorHorizontally)
  let mem := place mem (encodeUShort s.canny)
  let mem := place mem (encodeUShort s.sobel)
  let mem := place mem (encodeInt s.brightess)
  let mem := place mem (encodeUShort s.scale)
  let mem := place mem (encodeUInt s.contrast)
  let mem := place mem (encodeInt s.trackBarValue)
  mem ++ List.replicate (alignUp mem.length sizeofInt - mem.length) 0

/-- The `Settings` value an object representation stands for. -/
def Settings.ofBytes (mem : List Nat) : Settings :=
  let off := 0
  let (exit, off) := member mem off sizeofBool
  let (grayscale, off) := member mem off sizeofBool
  let (recording, off) := member mem off sizeofBool
  let (negative, off) := member mem off sizeofBool
  let (blur, off) := member mem off sizeofShort
  let (rotate, off) := member mem off sizeofInt
  let (mirrorVertically, off) := member mem off sizeofShort
  let (mirrorHorizontally, off) := member mem off sizeofShort
  let (canny, off) := member mem off sizeofShort
  let (sobel, off) := member mem off sizeofShort
  let (brightess, off) := member mem off sizeofInt
  let (scale, off) := member mem off sizeofShort
  let (contrast, off) := member mem off sizeofInt
  let (trackBarValue, _) := member mem off sizeofInt
  { exit := decodeBool exit
    grayscale := decodeBool grayscale
    recording := decodeBool recording
    negative := decodeBool negative
    blur := leValue blur
    rotate := decodeInt rotate
    mirrorVertically := leValue mirrorVertically
    mirrorHorizontally := leValue mirrorHorizontally
    canny := leValue canny
    sobel := leValue sobel
    brightess := decodeInt brightess
    scale := leValue scale
    contrast := leValue contrast
    trackBarValue := decodeInt trackBarValue }

/-- The value of `sizeof(Settings)`: the length of the object representation. -/
def sizeofSettings : Nat := Settings.fresh.toBytes.length

/-- The call `memset(p, c, n)` on the bytes `mem` of the object at `p`. -/
def memset (mem : List Nat) (c n : Nat) : List Nat :=
  List.replicate (min n mem.length) c ++ mem.drop n

/-! ## Reset -/

/-- The function `resetSettings` (main.cpp, lines 33 to 39).  The closing
`setTrackbarPos(trackBarName, processedWindowTitle, 1)` moves the slider of the
GUI; the only way it can reach the record is the slider callback, see
`trackbarCallback`. -/
def resetSettings (settings : Settings) : Settings :=
  let settings := Settings.ofBytes (memset settings.toBytes 0 (sizeofSettings - 3 * sizeofInt))
  let settings := { settings with contrast := 1 }
  let settings := { settings with scale := 1 }
  let settings := { settings with trackBarValue := 1 }
  settings

/-! ## Key codes -/

/-- The `int` a `char` is promoted to (its character code). -/
def ord (c : Char) : Int := c.toNat

/-- The macro `BACKSPACE` (main.cpp, line 7). -/
def BACKSPACE : Int := 8

/-- The macro `ESC` (main.cpp, line 8). -/
def ESC : Int := 27

/-- The C library function `toupper` in the "C" locale, the locale a program that never
calls `setlocale` runs in: the letters a to z go to A to Z, every other code is returned
as it is. -/
def toupper (c : Int) : Int := if ord 'a' ≤ c ∧ c ≤ ord 'z' then c - 32 else c

/-- The C library function `tolower` in the "C" locale: the letters A to Z go to a to z,
every other code (among them -1, the "no key" value of `waitKey`) is returned as it is. -/
def tolower (c : Int) : Int := if ord 'A' ≤ c ∧ c ≤ ord 'Z' then c + 32 else c

/-! ## The command interpreter -/

/-- The `int` that a result `v` of 32-bit `int` arithmetic is stored as: `v` itself from
-2147483648 to 2147483647, and beyond them the value the two's complement overflow
leaves, so that 2147483647 + 1 is -2147483648. -/
def wrapInt (v : Int) : Int := (v + 2147483648) % 4294967296 - 2147483648

/-- The overload `processDoUndoEffect(const int, const char, unsigned short&)`
(main.cpp, lines 41 to 52); the result is the value left in `value`. -/
def processDoUndoEffect_ushort (key : Int) (doKey : Char) (value : Nat) : Nat := Id.run do
  let mut value := value
  if key = ord doKey then
    if value = 255 then
      return value
    value := (value + 1) % 65536
  if key = toupper (ord doKey) then
    if value = 0 then
      return value
    value := (value + 65535) % 65536
  return value

/-- The overload `processDoUndoEffect(const int, const char, int&)`
(main.cpp, lines 54 to 59). -/
def processDoUndoEffect_int (key : Int) (doKey : Char) (value : Int) : Int := Id.run do
  let mut value := value
  if key = ord doKey then
    value := wrapInt (value + 1)
  if key = toupper (ord doKey) then
    value := wrapInt (value - 1)
  return value

/-- The overload `processDoUndoEffect(const int, const char, bool&)`
(main.cpp, lines 61 to 66). -/
def processDoUndoEffect_bool (key : Int) (doKey : Char) (value : Bool) : Bool := Id.run do
  let mut value := value
  if key = ord doKey then
    value := true
  if key = toupper (ord doKey) then
    value := false
  return value

/-- The function `coerceValue` (main.cpp, lines 68 to 74); no caller in the source. The
test `value < 0` is never true of an unsigned value. -/
def coerceValue (value : Nat) : Nat :=
  let value := if value > 255 then 255 else value
  value

/-- The function `keyPressed` (main.cpp, lines 76 to 114), as a function of the code
`key` that `waitKey(1)` returned.  The `switch` on `tolower(key)` has pairwise distinct
labels, each case ending in `break`, and is written as a chain of tests. -/
def keyPressed (key : Int) (settings : Settings) : Settings :=
  let settings := { settings with blur := processDoUndoEffect_ushort key 'b' settings.blur }
  let settings := { settings with grayscale := processDoUndoEffect_bool key 'g' settings.grayscale }
  let settings := { settings with rotate := processDoUndoEffect_int key 'r' settings.rotate }
  let settings := { settings with canny := processDoUndoEffect_ushort key 'c' settings.canny }
  let settings := { settings with sobel := processDoUndoEffect_ushort key 's' settings.sobel }
  let settings :=
    { settings with mirrorHorizontally := processDoUndoEffect_ushort key 'k' settings.mirrorHorizontally }
  let settings :=
    { settings with mirrorVertically := processDoUndoEffect_ushort key 'l' settings.mirrorVertically }
  let settings := { settings with negative := processDoUndoEffect_bool key 'n' settings.negative }
  let label := tolower key
  if label = ord 'r' then
    { settings with recording := false }
  else if label = ord '[' then
    { settings with brightess := settings.trackBarValue }
  else if label = ord ']' then
    { settings with brightess := wrapInt (-settings.trackBarValue) }
  else if label = ord ';' then
    { settings with contrast := (settings.trackBarValue % 4294967296).toNat }
  else if label = ord ',' then
    let settings := { settings with recording := false }
    { settings with scale := (settings.scale <<< 1) % 65536 }
  else if label = ord ' ' then
    { settings with recording := !settings.recording }
  else if label = BACKSPACE then
    resetSettings settings
  else if label = ESC then
    { settings with exit := true }
  else
    settings

/-- The callback that `init` registers with `createTrackbar` (main.cpp, lines 155 to
159); its `data` pointer is `&settings.trackBarValue`.  The GUI calls it with the
slider position whenever the slider moves. -/
def trackbarCallback (value : Int) (settings : Settings) : Settings :=
  let value := if value < 1 then 1 else value
  { settings with trackBarValue := value }

/-! ## The frame pipeline -/

/-- The two `cv::ColorConversionCodes` the source names. -/
inductive ColorConversionCode where
  | COLOR_RGB2GRAY
  | COLOR_GRAY2RGB
  deriving DecidableEq, Repr

/-- The two `cv::RotateFlags` the source names. -/
inductive RotateFlags where
  | ROTATE_90_CLOCKWISE
  | ROTATE_90_COUNTERCLOCKWISE
  deriving DecidableEq, Repr

/-- The OpenCV constant `CV_16S`. -/
def CV_16S : Int := 3

/-- The image operators of OpenCV that `processFrame` calls, over a type `Mat` of images.
Each takes the source image first and returns the destination image; the remaining
arguments are those of the C++ call, in its order (`double` arguments are rationals). -/
structure OpenCV (Mat : Type) where
  /-- The call `cvtColor(src, dst, code)`. -/
  cvtColor : Mat → ColorConversionCode → Mat
  /-- The call `GaussianBlur(src, dst, Size(width, height), sigmaX)`. -/
  GaussianBlur : Mat → Int × Int → ℚ → Mat
  /-- The call `rotate(src, dst, rotateCode)`. -/
  rotate : Mat → RotateFlags → Mat
  /-- The call `Canny(image, edges, threshold1, threshold2)`. -/
  Canny : Mat → ℚ → ℚ → Mat
  /-- The call `Sobel(src, dst, ddepth, dx, dy, ksize, scale, delta)`. -/
  Sobel : Mat → Int → Int → Int → Int → ℚ → ℚ → Mat
  /-- The call `convertScaleAbs(src, dst)`. -/
  convertScaleAbs : Mat → Mat
  /-- The call `addWeighted(src1, alpha, src2, beta, gamma, dst)`. -/
  addWeighted : Mat → ℚ → Mat → ℚ → ℚ → Mat
  /-- The call `flip(src, dst, flipCode)`. -/
  flip : Mat → Int → Mat
  /-- The call `resize(src, dst, Size(), fx, fy)`. -/
  resize : Mat → ℚ → ℚ → Mat
  /-- The call `src.convertTo(dst, rtype, alpha, beta)`. -/
  convertTo : Mat → Int → ℚ → ℚ → Mat

/-- The loop `for (int i = 0; i < n; i++) body`, for a bound `n` the body leaves alone:
`body` run `n` times in a row. -/
def loop {σ : Type} (n : Nat) (body : σ → σ) (init : σ) : σ :=
  match n with
  | 0 => init
  | n + 1 => loop n body (body init)

/-- One pass of the blur loop (main.cpp, lines 120 to 122). -/
def blurPass {Mat : Type} (cv : OpenCV Mat) (state : Mat × Settings) : Mat × Settings :=
  let (result, settings) := state
  let settings :=
    if settings.trackBarValue.tmod 2 = 0 then
      { settings with trackBarValue := settings.trackBarValue + 1 }
    else settings
  (cv.GaussianBlur result (settings.trackBarValue, settings.trackBarValue) 0, settings)

/-- One pass of the Sobel loop (main.cpp, lines 135 to 141). -/
def sobelPass {Mat : Type} (cv : OpenCV Mat) (result : Mat) : Mat :=
  let gradX := cv.Sobel result CV_16S 1 0 1 1 0
  let gradY := cv.Sobel result CV_16S 0 1 1 1 0
  let absGradX := cv.convertScaleAbs gradX
  let absGradY := cv.convertScaleAbs gradY
  cv.addWeighted absGradX (1 / 2) absGradY (1 / 2) 0

/-- The function `processFrame` (main.cpp, lines 116 to 152): the image and the settings
it leaves behind.  None of the loop bodies writes its own bound, so each bound is read
once. -/
def processFrame {Mat : Type} (cv : OpenCV Mat) (result : Mat) (settings : Settings) :
    Mat × Settings :=
  let result := if settings.grayscale then cv.cvtColor result .COLOR_RGB2GRAY else result
  let (result, settings) := loop settings.blur (blurPass cv) (result, settings)
  let result :=
    if settings.rotate ≥ 0 then
      loop settings.rotate.toNat (fun result => cv.rotate result .ROTATE_90_CLOCKWISE) result
    else
      let amount := settings.rotate.natAbs
      loop amount (fun result => cv.rotate result .ROTATE_90_COUNTERCLOCKWISE) result
  let result := loop settings.canny (fun result => cv.Canny result 100 200) result
  let result := loop settings.sobel (sobelPass cv) result
  let result := loop settings.mirrorHorizontally (fun result => cv.flip result 1) result
  let result := loop settings.mirrorVertically (fun result => cv.flip result 0) result
  let result :=
    if settings.scale > 1 then cv.resize result (1 / settings.scale) (1 / settings.scale)
    else result
  let result := cv.convertTo result (-1) settings.contrast settings.brightess
  let result := if settings.negative then cv.convertTo result (-1) (-1) 255 else result
  (result, settings)

/-! ## Runs of the engine -/

/-- What can happen to the settings record: `waitKey` hands a key code to `keyPressed`,
the slider reports a position to the callback, or `processFrame` runs on a frame. -/
inductive Event (Mat : Type) where
  | key (code : Int)
  | slider (value : Int)
  | frame (image : Mat)

/-- The settings after one event. -/
def step {Mat : Type} (cv : OpenCV Mat) (settings : Settings) : Event Mat → Settings
  | .key code => keyPressed code settings
  | .slider value => trackbarCallback value settings
  | .frame image => (processFrame cv image settings).2

/-- The settings after a sequence of events, the first event first. -/
def run {Mat : Type} (cv : OpenCV Mat) (settings : Settings) (events : List (Event Mat)) :
    Settings :=
  events.foldl (step cv) settings

/-- The slider reports no position above `bound`. -/
def Event.sliderAtMost {Mat : Type} (bound : Int) : Event Mat → Prop
  | .slider value => value ≤ bound
  | _ => True

/-- Each of the five pass-counters is at most 255. -/
def Settings.countersInRange (s : Settings) : Prop :=
  s.blur ≤ 255 ∧ s.canny ≤ 255 ∧ s.sobel ≤ 255 ∧ s.mirrorHorizontally ≤ 255 ∧
    s.mirrorVertically ≤ 255

/-- Image operators that hand every image back as it is; they serve to run the engine on
concrete inputs, where only the settings are looked at. -/
def OpenCV.still (Mat : Type) : OpenCV Mat where
  cvtColor src _ := src
  GaussianBlur src _ _ := src
  rotate src _ := src
  Canny src _ _ := src
  Sobel src _ _ _ _ _ _ := src
  convertScaleAbs src := src
  addWeighted src1 _ _ _ _ := src1
  flip src _ := src
  resize src _ _ := src
  convertTo src _ _ _ := src

/-! ## The recording branch of the main loop -/

/-- The frame that `main` passes to `video.write` (main.cpp, lines 203 to 209), none when
`settings.recording` is off; `channels` is the method `Mat::channels`. -/
def recorderInput {Mat : Type} (cv : OpenCV Mat) (channels : Mat → Nat) (processed : Mat)
    (settings : Settings) : Option Mat :=
  if settings.recording then
    let processed :=
      if channels processed ≠ 3 then cv.cvtColor processed .COLOR_GRAY2RGB else processed
    some processed
  else
    none

/-- One turn of the loop of `main` from `keyPressed` to the recording branch (main.cpp,
lines 201 to 213), for the key code `key` and the captured frame `processed`: the frame
handed to the recorder, if any, and the settings left behind. -/
def mainTurn {Mat : Type} (cv : OpenCV Mat) (channels : Mat → Nat) (key : Int)
    (processed : Mat) (settings : Settings) : Option Mat × Settings :=
  let settings := keyPressed key settings
  let (processed, settings) := processFrame cv processed settings
  (recorderInput cv channels processed settings, settings)

/-- What the OpenCV reference says about the channel count of the result of each
operator: `cvtColor` makes one channel of three with `COLOR_RGB2GRAY` and three of one
with `COLOR_GRAY2RGB`, `Canny` returns a single-channel edge map, and every other
operator returns an image with the channel count of its source. -/
structure ChannelContract {Mat : Type} (cv : OpenCV Mat) (channels : Mat → Nat) : Prop where
  cvtColor_RGB2GRAY : ∀ src, channels src = 3 → channels (cv.cvtColor src .COLOR_RGB2GRAY) = 1
  cvtColor_GRAY2RGB : ∀ src, channels src = 1 → channels (cv.cvtColor src .COLOR_GRAY2RGB) = 3
  GaussianBlur : ∀ src ksize sigmaX, channels (cv.GaussianBlur src ksize sigmaX) = channels src
  rotate : ∀ src code, channels (cv.rotate src code) = channels src
  Canny : ∀ src threshold1 threshold2, channels (cv.Canny src threshold1 threshold2) = 1
  Sobel : ∀ src ddepth dx dy ksize scale delta,
    channels (cv.Sobel src ddepth dx dy ksize scale delta) = channels src
  convertScaleAbs : ∀ src, channels (cv.convertScaleAbs src) = channels src
  addWeighted : ∀ src1 alpha src2 beta gamma,
    channels (cv.addWeighted src1 alpha src2 beta gamma) = channels src1
  flip : ∀ src flipCode, channels (cv.flip src flipCode) = channels src
  resize : ∀ src fx fy, channels (cv.resize src fx fy) = channels src
  convertTo : ∀ src rtype alpha beta, channels (cv.convertTo src rtype alpha beta) = channels src

/-- The image operators as they act on the channel count alone: an image is stood for by
its number of channels. -/
def OpenCV.channelCount : OpenCV Nat where
  cvtColor src code :=
    match code with
    | .COLOR_RGB2GRAY => if src = 3 then 1 else src
    | .COLOR_GRAY2RGB => if src = 1 then 3 else src
  GaussianBlur src _ _ := src
  rotate src _ := src
  Canny _ _ _ := 1
  Sobel src _ _ _ _ _ _ := src
  convertScaleAbs src := src
  addWeighted src1 _ _ _ _ := src1
  flip src _ := src
  resize src _ _ := src
  convertTo src _ _ _ := src

/-! ## Eight-bit frames and the pixel operators the spec determines -/

/-- Modelled from the spec: a frame is "a 2-D grid of pixels, either single-channel or
three-channel"; the type `Mat` is missing from the sources. Here a frame has `rows` by
`cols` pixels of `channels` values each, every value an 8-bit number. -/
structure Frame where
  rows : Nat
  cols : Nat
  channels : Nat
  px : Fin rows → Fin cols → Fin channels → Fin 256

/-- Modelled from the spec: "saturation to the valid pixel-value range", for 8-bit values
the range 0 to 255. -/
def saturate (v : Int) : Fin 256 := ⟨(max 0 (min 255 v)).toNat, by omega⟩

/-- The frame whose every channel value is `g` of the value `src` has there. -/
def Frame.map (g : Fin 256 → Fin 256) (src : Frame) : Frame :=
  { src with px := fun i j c => g (src.px i j c) }

/-- Modelled from the spec: "Horizontal mirror: flip around the vertical axis"; the body of
`cv::flip` is missing from the sources. Every row is reversed. -/
def Frame.mirrorHorizontal (src : Frame) : Frame :=
  { src with px := fun i j c => src.px i j.rev c }

/-- Modelled from the spec: "Vertical mirror: flip around the horizontal axis"; the body of
`cv::flip` is missing from the sources. The order of the rows is reversed. -/
def Frame.mirrorVertical (src : Frame) : Frame :=
  { src with px := fun i j c => src.px i.rev j c }

/-- Modelled from the spec: "a 90°-clockwise rotation", a right-angle rotation with no
interpolation; the body of `cv::rotate` is missing from the sources. Row `i` of the
result is column `i` of the source read from the bottom up. -/
def Frame.rotateClockwise (src : Frame) : Frame where
  rows := src.cols
  cols := src.rows
  channels := src.channels
  px := fun i j c => src.px j.rev i c

/-- Modelled from the spec: a "90°-counterclockwise" rotation with no interpolation; the
body of `cv::rotate` is missing from the sources. Row `i` of the result is column `i`
from the right of the source, read from the top down. -/
def Frame.rotateCounterclockwise (src : Frame) : Frame where
  rows := src.cols
  cols := src.rows
  channels := src.channels
  px := fun i j c => src.px j i.rev c

/-- Modelled from the spec: "apply `output = input * contrastMultiplier +
brightnessOffset` per pixel channel, with saturation to the valid pixel-value range"; the
body of `Mat::convertTo` is missing from the sources. The arithmetic is that of the
integers. -/
def Frame.linear (alpha beta : Int) (src : Frame) : Frame :=
  src.map (fun p => saturate ((p : Nat) * alpha + beta))

/-- Modelled from the spec: grayscale conversion "converts a 3-channel frame to
single-channel by the standard luma mapping"; the body of `cv::cvtColor` is missing from
the sources. The luma mapping is the parameter `luma`. -/
def Frame.gray (luma : Fin 256 → Fin 256 → Fin 256 → Fin 256) (src : Frame)
    (h : src.channels = 3) : Frame where
  rows := src.rows
  cols := src.cols
  channels := 1
  px := fun i j _ =>
    luma (src.px i j ⟨0, by omega⟩) (src.px i j ⟨1, by omega⟩) (src.px i j ⟨2, by omega⟩)

/-- Modelled from the spec: "normalizing single-channel frames to three-channel"; the body
of `cv::cvtColor` is missing from the sources. Each of the three channels takes the one
value of the source pixel. -/
def Frame.spread (src : Frame) (h : src.channels = 1) : Frame where
  rows := src.rows
  cols := src.cols
  channels := 3
  px := fun i j _ => src.px i j ⟨0, by omega⟩

/-- The image operators on 8-bit frames: the operators the spec determines pixel by pixel
(`cvtColor` between three channels and one, `rotate`, `flip` with the codes 1 and 0,
`convertTo` to the same type with integer factor and offset) are those above; the other
operators, and these on any other argument, are those of `ext`. -/
def OpenCV.pixels (luma : Fin 256 → Fin 256 → Fin 256 → Fin 256) (ext : OpenCV Frame) :
    OpenCV Frame where
  cvtColor src code :=
    match code with
    | .COLOR_RGB2GRAY => if h : src.channels = 3 then src.gray luma h else ext.cvtColor src code
    | .COLOR_GRAY2RGB => if h : src.channels = 1 then src.spread h else ext.cvtColor src code
  GaussianBlur := ext.GaussianBlur
  rotate src code :=
    match code with
    | .ROTATE_90_CLOCKWISE => src.rotateClockwise
    | .ROTATE_90_COUNTERCLOCKWISE => src.rotateCounterclockwise
  Canny := ext.Canny
  Sobel := ext.Sobel
  convertScaleAbs := ext.convertScaleAbs
  addWeighted := ext.addWeighted
  flip src flipCode :=
    if flipCode = 1 then src.mirrorHorizontal
    else if flipCode = 0 then src.mirrorVertical
    else ext.flip src flipCode
  resize := ext.resize
  convertTo src rtype alpha beta :=
    if rtype = -1 ∧ alpha.den = 1 ∧ beta.den = 1 then src.linear alpha.num beta.num
    else ext.convertTo src rtype alpha beta

/-- A luma mapping with the weights 0.299, 0.587 and 0.114, rounded to the nearest
integer; it serves to run the pipeline on concrete frames. -/
def luma601 (r g b : Fin 256) : Fin 256 :=
  ⟨(299 * r.val + 587 * g.val + 114 * b.val + 500) / 1000, by omega⟩

/-- A concrete frame of 2 rows, 3 columns and 3 channels, all its values distinct. -/
def Frame.sample : Frame where
  rows := 2
  cols := 3
  channels := 3
  px := fun i j c => ⟨(40 * i.val + 10 * j.val + c.val) % 256, Nat.mod_lt _ (by decide)⟩

/-! ## Lemmas on the object representation and on reset -/

theorem sizeofSettings_eq : sizeofSettings = 36 := by decide

theorem toBytes_length (s : Settings) : s.toBytes.length = 36 := by
  simp [Settings.toBytes, place, encodeBool, encodeUShort, encodeInt, encodeUInt, leBytes,
    sizeofBool, sizeofShort, sizeofInt, alignUp]

theorem toBytes_drop (s : Settings) :
    s.toBytes.drop 24 =
      encodeUShort s.scale ++ [0, 0] ++ encodeUInt s.contrast ++ encodeInt s.trackBarValue := by
  simp [Settings.toBytes, place, encodeBool, encodeUShort, encodeInt, encodeUInt, leBytes,
    sizeofBool, sizeofShort, sizeofInt, alignUp]

theorem memset_toBytes (s : Settings) :
    memset s.toBytes 0 (sizeofSettings - 3 * sizeofInt) =
      List.replicate 24 0 ++
        (encodeUShort s.scale ++ [0, 0] ++ encodeUInt s.contrast ++ encodeInt s.trackBarValue) := by
  rw [← toBytes_drop]
  simp [memset, toBytes_length, sizeofSettings_eq, sizeofInt]

theorem ofBytes_zeroed (tail : List Nat) :
    Settings.ofBytes (List.replicate 24 0 ++ tail) =
      { Settings.ofBytes (List.replicate 24 0 ++ tail) with
        exit := false, grayscale := false, recording := false, negative := false, blur := 0,
        rotate := 0, mirrorVertically := 0, mirrorHorizontally := 0, canny := 0, sobel := 0,
        brightess := 0 } := by
  simp only [Settings.ofBytes, member, alignUp, sizeofBool, sizeofShort, sizeofInt]
  simp [List.replicate, decodeBool, decodeInt, leValue, sizeofInt]

theorem resetSettings_eq_fresh (s : Settings) : resetSettings s = Settings.fresh := by
  simp only [resetSettings, memset_toBytes]
  rw [ofBytes_zeroed]
  rfl

/-! ## Lemmas on the command interpreter -/

theorem processDoUndoEffect_ushort_eq (key : Int) (doKey : Char) (value : Nat) :
    processDoUndoEffect_ushort key doKey value =
      if key = ord doKey then
        if value = 255 then value
        else if key = toupper (ord doKey) then
          (if (value + 1) % 65536 = 0 then (value + 1) % 65536
            else ((value + 1) % 65536 + 65535) % 65536)
        else (value + 1) % 65536
      else if key = toupper (ord doKey) then
        (if value = 0 then value else (value + 65535) % 65536)
      else value := by
  simp only [processDoUndoEffect_ushort, Id.run, pure, bind]

theorem processDoUndoEffect_int_eq (key : Int) (doKey : Char) (value : Int) :
    processDoUndoEffect_int key doKey value =
      if key = ord doKey then
        if key = toupper (ord doKey) then wrapInt (wrapInt (value + 1) - 1)
        else wrapInt (value + 1)
      else if key = toupper (ord doKey) then wrapInt (value - 1) else value := by
  simp only [processDoUndoEffect_int, Id.run, pure, bind]

theorem processDoUndoEffect_bool_eq (key : Int) (doKey : Char) (value : Bool) :
    processDoUndoEffect_bool key doKey value =
      if key = ord doKey then
        if key = toupper (ord doKey) then false else true
      else if key = toupper (ord doKey) then false else value := by
  simp only [processDoUndoEffect_bool, Id.run, pure, bind]

theorem keyPressed_comma (s : Settings) :
    keyPressed (ord ',') s = { s with recording := false, scale := (s.scale * 2) % 65536 } := by
  simp [keyPressed, processDoUndoEffect_ushort_eq, processDoUndoEffect_int_eq,
    processDoUndoEffect_bool_eq, ord, toupper, tolower, BACKSPACE, ESC, Nat.shiftLeft_eq]

theorem keyPressed_BACKSPACE (s : Settings) : keyPressed BACKSPACE s = Settings.fresh := by
  simp [keyPressed, processDoUndoEffect_ushort_eq, processDoUndoEffect_int_eq,
    processDoUndoEffect_bool_eq, ord, toupper, tolower, BACKSPACE, ESC, resetSettings_eq_fresh]

theorem processDoUndoEffect_ushort_le (key : Int) (doKey : Char) (value : Nat)
    (h : value ≤ 255) : processDoUndoEffect_ushort key doKey value ≤ 255 := by
  rw [processDoUndoEffect_ushort_eq]
  split_ifs <;> omega

theorem keyPressed_countersInRange (key : Int) (s : Settings) (h : s.countersInRange) :
    (keyPressed key s).countersInRange := by
  obtain ⟨h1, h2, h3, h4, h5⟩ := h
  unfold keyPressed
  simp only []
  split_ifs <;>
    simp [Settings.countersInRange, resetSettings_eq_fresh, Settings.fresh,
      processDoUndoEffect_ushort_le, *]

theorem keyPressed_trackBarValue (key : Int) (s : Settings) :
    (keyPressed key s).trackBarValue = s.trackBarValue ∨ (keyPressed key s).trackBarValue = 1 := by
  unfold keyPressed
  simp only []
  split_ifs <;> simp [resetSettings_eq_fresh, Settings.fresh]

/-! ## Lemmas on the pipeline and on runs -/

theorem tmod_two_eq_zero_iff (v : Int) : v.tmod 2 = 0 ↔ v % 2 = 0 := by
  rw [← Int.dvd_iff_tmod_eq_zero, Int.dvd_iff_emod_eq_zero]

theorem loop_blurPass_settings {Mat : Type} (cv : OpenCV Mat) (n : Nat) (image : Mat)
    (s : Settings) :
    (loop n (blurPass cv) (image, s)).2 =
      { s with trackBarValue :=
          if n = 0 then s.trackBarValue
          else if s.trackBarValue % 2 = 0 then s.trackBarValue + 1 else s.trackBarValue } := by
  induction n generalizing image s with
  | zero => simp [loop]
  | succ n ih =>
    rw [loop]
    by_cases hv : s.trackBarValue % 2 = 0
    · have hodd : ¬ (s.trackBarValue + 1) % 2 = 0 := by omega
      simp [blurPass, tmod_two_eq_zero_iff, hv, ih, hodd]
    · simp [blurPass, tmod_two_eq_zero_iff, hv, ih]

theorem processFrame_settings {Mat : Type} (cv : OpenCV Mat) (image : Mat) (s : Settings) :
    (processFrame cv image s).2 =
      { s with trackBarValue :=
          if s.blur = 0 then s.trackBarValue
          else if s.trackBarValue % 2 = 0 then s.trackBarValue + 1 else s.trackBarValue } := by
  unfold processFrame
  simp only []
  rw [← loop_blurPass_settings cv s.blur
    (if s.grayscale = true then cv.cvtColor image .COLOR_RGB2GRAY else image) s]

theorem run_invariant {Mat : Type} (cv : OpenCV Mat) (P : Settings → Prop)
    (Q : Event Mat → Prop) (hstep : ∀ s e, Q e → P s → P (step cv s e))
    (events : List (Event Mat)) (hQ : ∀ e ∈ events, Q e) (s : Settings) (hs : P s) :
    P (run cv s events) := by
  induction events generalizing s with
  | nil => simpa [run] using hs
  | cons e es ih =>
    have h1 : P (step cv s e) := hstep s e (hQ e (List.mem_cons_self e es)) hs
    have h2 := ih (fun e' he' => hQ e' (List.mem_cons_of_mem e he')) (step cv s e) h1
    simpa [run] using h2

theorem loop_blurPass_eq {Mat : Type} (cv : OpenCV Mat) (n : Nat) (image : Mat)
    (s : Settings) :
    loop n (blurPass cv) (image, s) =
      (loop n
          (fun m =>
            cv.GaussianBlur m
              (if s.trackBarValue % 2 = 0 then s.trackBarValue + 1 else s.trackBarValue,
                if s.trackBarValue % 2 = 0 then s.trackBarValue + 1 else s.trackBarValue) 0)
          image,
        { s with trackBarValue :=
            if n = 0 then s.trackBarValue
            else if s.trackBarValue % 2 = 0 then s.trackBarValue + 1 else s.trackBarValue }) := by
  induction n generalizing image s with
  | zero => simp [loop]
  | succ n ih =>
    rw [loop, loop]
    by_cases hv : s.trackBarValue % 2 = 0
    · have hodd : ¬ (s.trackBarValue + 1) % 2 = 0 := by omega
      simp [blurPass, tmod_two_eq_zero_iff, hv, ih, hodd]
    · simp [blurPass, tmod_two_eq_zero_iff, hv, ih]

theorem tolower_ne_r (key : Int) (h : ¬ tolower key = ord 'r') :
    key ≠ ord 'r' ∧ key ≠ ord 'R' := by
  have hA : ord 'A' = 65 := rfl
  have hZ : ord 'Z' = 90 := rfl
  have hr : ord 'r' = 114 := rfl
  have hR : ord 'R' = 82 := rfl
  unfold tolower at h
  rw [hA, hZ, hr] at h
  rw [hr, hR]
  split_ifs at h <;> omega

theorem processDoUndoEffect_int_other (key : Int) (value : Int)
    (h : ¬ tolower key = ord 'r') : processDoUndoEffect_int key 'r' value = value := by
  obtain ⟨h1, h2⟩ := tolower_ne_r key h
  have hup : toupper (ord 'r') = ord 'R' := by decide
  rw [processDoUndoEffect_int_eq, hup, if_neg h1, if_neg h2]

theorem keyPressed_geometry (key : Int) (s : Settings) :
    (keyPressed key s).recording = false ∨
      ((keyPressed key s).rotate = s.rotate ∧ (keyPressed key s).scale = s.scale) := by
  unfold keyPressed
  simp only []
  split_ifs with h1 h2 h3 h4 h5 h6 h7 h8
  · exact Or.inl rfl
  · exact Or.inr ⟨processDoUndoEffect_int_other key s.rotate h1, rfl⟩
  · exact Or.inr ⟨processDoUndoEffect_int_other key s.rotate h1, rfl⟩
  · exact Or.inr ⟨processDoUndoEffect_int_other key s.rotate h1, rfl⟩
  · exact Or.inl rfl
  · exact Or.inr ⟨processDoUndoEffect_int_other key s.rotate h1, rfl⟩
  · left
    rw [resetSettings_eq_fresh]
    rfl
  · exact Or.inr ⟨processDoUndoEffect_int_other key s.rotate h1, rfl⟩
  · exact Or.inr ⟨processDoUndoEffect_int_other key s.rotate h1, rfl⟩

theorem keyPressed_toneInRange (key : Int) (s : Settings)
    (h : 1 ≤ s.trackBarValue ∧ s.trackBarValue ≤ 255 ∧ -255 ≤ s.brightess ∧
      s.brightess ≤ 255 ∧ 1 ≤ s.contrast ∧ s.contrast ≤ 255) :
    1 ≤ (keyPressed key s).trackBarValue ∧ (keyPressed key s).trackBarValue ≤ 255 ∧
      -255 ≤ (keyPressed key s).brightess ∧ (keyPressed key s).brightess ≤ 255 ∧
      1 ≤ (keyPressed key s).contrast ∧ (keyPressed key s).contrast ≤ 255 := by
  obtain ⟨h1, h2, h3, h4, h5, h6⟩ := h
  unfold keyPressed
  simp only []
  split_ifs <;> simp only [resetSettings_eq_fresh, Settings.fresh, wrapInt] <;> omega

theorem loop_invariant {σ : Type} (P : σ → Prop) (body : σ → σ)
    (h : ∀ x, P x → P (body x)) (n : Nat) (x : σ) (hx : P x) : P (loop n body x) := by
  induction n generalizing x with
  | zero => simpa [loop] using hx
  | succ n ih =>
    rw [loop]
    exact ih (body x) (h x hx)

theorem loop_channels {Mat : Type} (channels : Mat → Nat) (body : Mat → Mat)
    (h : ∀ m, channels (body m) = channels m) (n : Nat) (x : Mat) :
    channels (loop n body x) = channels x := by
  induction n generalizing x with
  | zero => simp [loop]
  | succ n ih => rw [loop, ih, h]

theorem processFrame_channels {Mat : Type} (cv : OpenCV Mat) (channels : Mat → Nat)
    (h : ChannelContract cv channels) (s : Settings) (f : Mat) (hf : channels f = 3) :
    channels (processFrame cv f s).1 = 1 ∨ channels (processFrame cv f s).1 = 3 := by
  simp only [processFrame, loop_blurPass_eq]
  have hneg : ∀ m, (channels m = 1 ∨ channels m = 3) →
      (channels (if s.negative = true then cv.convertTo m (-1) (-1) 255 else m) = 1 ∨
        channels (if s.negative = true then cv.convertTo m (-1) (-1) 255 else m) = 3) := by
    intro m hm
    by_cases hn : s.negative = true
    · rw [if_pos hn, h.convertTo]; exact hm
    · rw [if_neg hn]; exact hm
  have hscale : ∀ m, (channels m = 1 ∨ channels m = 3) →
      (channels (if s.scale > 1 then cv.resize m (1 / s.scale) (1 / s.scale) else m) = 1 ∨
        channels (if s.scale > 1 then cv.resize m (1 / s.scale) (1 / s.scale) else m) = 3) := by
    intro m hm
    by_cases hs : s.scale > 1
    · rw [if_pos hs, h.resize]; exact hm
    · rw [if_neg hs]; exact hm
  have hsobel : ∀ m, channels (sobelPass cv m) = channels m := by
    intro m
    simp only [sobelPass]
    rw [h.addWeighted, h.convertScaleAbs, h.Sobel]
  apply hneg
  rw [h.convertTo]
  apply hscale
  rw [loop_channels channels _ (fun m => h.flip m 0),
    loop_channels channels _ (fun m => h.flip m 1), loop_channels channels _ hsobel]
  refine loop_invariant (fun m => channels m = 1 ∨ channels m = 3) _
    (fun m _ => Or.inl (h.Canny m 100 200)) _ _ ?_
  have hgray : channels (if s.grayscale = true then cv.cvtColor f .COLOR_RGB2GRAY else f) = 1 ∨
      channels (if s.grayscale = true then cv.cvtColor f .COLOR_RGB2GRAY else f) = 3 := by
    by_cases hg : s.grayscale = true
    · rw [if_pos hg]; exact Or.inl (h.cvtColor_RGB2GRAY f hf)
    · rw [if_neg hg]; exact Or.inr hf
  beta_reduce
  by_cases hr : s.rotate ≥ 0
  · rw [if_pos hr, loop_channels channels _ (fun m => h.rotate m _),
      loop_channels channels _ (fun m => h.GaussianBlur m _ _)]
    exact hgray
  · rw [if_neg hr, loop_channels channels _ (fun m => h.rotate m _),
      loop_channels channels _ (fun m => h.GaussianBlur m _ _)]
    exact hgray

theorem channelCount_contract : ChannelContract OpenCV.channelCount id where
  cvtColor_RGB2GRAY := by
    intro src h
    have h3 : src = 3 := h
    simp [OpenCV.channelCount, h3]
  cvtColor_GRAY2RGB := by
    intro src h
    have h1 : src = 1 := h
    simp [OpenCV.channelCount, h1]
  GaussianBlur := by intros; rfl
  rotate := by intros; rfl
  Canny := by intros; rfl
  Sobel := by intros; rfl
  convertScaleAbs := by intros; rfl
  addWeighted := by intros; rfl
  flip := by intros; rfl
  resize := by intros; rfl
  convertTo := by intros; rfl

/-! ## Lemmas on the pixel operators -/

theorem saturate_val (p : Fin 256) : saturate ((p : Nat) : Int) = p := by
  apply Fin.ext
  simp only [saturate]
  omega

theorem linear_one_zero (f : Frame) : f.linear 1 0 = f := by
  cases f
  simp [Frame.linear, Frame.map, saturate_val]

theorem mirrorHorizontal_twice (f : Frame) : f.mirrorHorizontal.mirrorHorizontal = f := by
  cases f
  simp [Frame.mirrorHorizontal, Fin.rev_rev]

theorem rotateClockwise_four (f : Frame) :
    f.rotateClockwise.rotateClockwise.rotateClockwise.rotateClockwise = f := by
  cases f
  simp [Frame.rotateClockwise, Fin.rev_rev]

theorem rotateCounterclockwise_four (f : Frame) :
    f.rotateCounterclockwise.rotateCounterclockwise.rotateCounterclockwise.rotateCounterclockwise
      = f := by
  cases f
  simp [Frame.rotateCounterclockwise, Fin.rev_rev]

theorem pixels_convertTo (luma : Fin 256 → Fin 256 → Fin 256 → Fin 256) (ext : OpenCV Frame)
    (src : Frame) (alpha : Nat) (beta : Int) :
    (OpenCV.pixels luma ext).convertTo src (-1) alpha beta = src.linear alpha beta := by
  simp [OpenCV.pixels]

theorem pixels_negative (luma : Fin 256 → Fin 256 → Fin 256 → Fin 256) (ext : OpenCV Frame)
    (src : Frame) :
    (OpenCV.pixels luma ext).convertTo src (-1) (-1) 255 = src.linear (-1) 255 := by
  simp [OpenCV.pixels]


theorem loop_succ_outer {σ : Type} (g : σ → σ) (n : Nat) (x : σ) :
    loop (n + 1) g x = g (loop n g x) := by
  induction n generalizing x with
  | zero => simp [loop]
  | succ n ih => rw [loop, ih (g x)]; rfl

theorem loop_involution {σ : Type} (g : σ → σ) (hg : ∀ x, g (g x) = x) (n : Nat) (x : σ) :
    loop n g x = if n % 2 = 0 then x else g x := by
  induction n with
  | zero => simp [loop]
  | succ n ih =>
    rw [loop_succ_outer, ih]
    by_cases h : n % 2 = 0
    · have h1 : ¬ (n + 1) % 2 = 0 := by omega
      rw [if_pos h, if_neg h1]
    · have h1 : (n + 1) % 2 = 0 := by omega
      rw [if_neg h, if_pos h1, hg]

theorem processFrame_mirror (luma : Fin 256 → Fin 256 → Fin 256 → Fin 256)
    (ext : OpenCV Frame) (f : Frame) (n : Nat) :
    (processFrame (OpenCV.pixels luma ext) f { Settings.fresh with mirrorHorizontally := n }).1 =
      loop n Frame.mirrorHorizontal f := by
  simp [processFrame, Settings.fresh, loop, OpenCV.pixels, linear_one_zero]

/-! ## Lemmas on the keys that do `int` arithmetic -/

theorem wrapInt_of_inRange (v : Int) (h1 : -2147483648 ≤ v) (h2 : v ≤ 2147483647) :
    wrapInt v = v := by
  unfold wrapInt
  omega

theorem keyPressed_r (s : Settings) :
    keyPressed (ord 'r') s = { s with rotate := wrapInt (s.rotate + 1), recording := false } := by
  simp [keyPressed, processDoUndoEffect_ushort_eq, processDoUndoEffect_int_eq,
    processDoUndoEffect_bool_eq, ord, toupper, tolower, BACKSPACE, ESC]

theorem keyPressed_R (s : Settings) :
    keyPressed (ord 'R') s = { s with rotate := wrapInt (s.rotate - 1), recording := false } := by
  simp [keyPressed, processDoUndoEffect_ushort_eq, processDoUndoEffect_int_eq,
    processDoUndoEffect_bool_eq, ord, toupper, tolower, BACKSPACE, ESC]

theorem loop_r_rotate (n : Nat) (h : n ≤ 2147483647) :
    loop n (keyPressed (ord 'r')) Settings.fresh = { Settings.fresh with rotate := (n : Int) } := by
  induction n with
  | zero => simp [loop, Settings.fresh]
  | succ n ih =>
    have hn : n ≤ 2147483647 := by omega
    have hw : wrapInt ((n : Int) + 1) = (n : Int) + 1 := wrapInt_of_inRange _ (by omega) (by omega)
    rw [loop_succ_outer, ih hn, keyPressed_r]
    simp [Settings.fresh, hw]

theorem keyPressed_bracketOpen (s : Settings) :
    keyPressed (ord '[') s = { s with brightess := s.trackBarValue } := by
  simp [keyPressed, processDoUndoEffect_ushort_eq, processDoUndoEffect_int_eq,
    processDoUndoEffect_bool_eq, ord, toupper, tolower, BACKSPACE, ESC]

theorem keyPressed_bracketClose (s : Settings) :
    keyPressed (ord ']') s = { s with brightess := wrapInt (-s.trackBarValue) } := by
  simp [keyPressed, processDoUndoEffect_ushort_eq, processDoUndoEffect_int_eq,
    processDoUndoEffect_bool_eq, ord, toupper, tolower, BACKSPACE, ESC]

theorem keyPressed_semicolon (s : Settings) :
    keyPressed (ord ';') s = { s with contrast := (s.trackBarValue % 4294967296).toNat } := by
  simp [keyPressed, processDoUndoEffect_ushort_eq, processDoUndoEffect_int_eq,
    processDoUndoEffect_bool_eq, ord, toupper, tolower, BACKSPACE, ESC]

theorem run_trackBarValue_range {Mat : Type} (cv : OpenCV Mat) (events : List (Event Mat))
    (h : ∀ e ∈ events, Event.sliderAtMost 2147483647 e) :
    1 ≤ (run cv Settings.fresh events).trackBarValue ∧
      (run cv Settings.fresh events).trackBarValue ≤ 2147483647 := by
  refine run_invariant cv (fun s => 1 ≤ s.trackBarValue ∧ s.trackBarValue ≤ 2147483647)
    (Event.sliderAtMost 2147483647) ?_ events h Settings.fresh (by simp [Settings.fresh])
  intro s e he hs
  cases e with
  | key code =>
    have hk := keyPressed_trackBarValue code s
    simp only [step]
    omega
  | slider value =>
    simp only [Event.sliderAtMost] at he
    simp only [step, trackbarCallback]
    split_ifs <;> omega
  | frame image =>
    simp only [step, processFrame_settings]
    split_ifs <;> omega

/-! ## Reset (C1) -/

/-- C1: for every settings value `s`, `resetSettings s` is the record of the fresh-start
defaults (exit, grayscale, recording and negative false; blur, rotate, both mirror
counters, canny, sobel and brightess 0; scale, contrast and trackBarValue 1), and so is
the record a BACKSPACE key event leaves; a slider callback at position 1, which the
closing `setTrackbarPos` may set off, changes nothing of it. -/
theorem reset_restores_defaults (s : Settings) :
    resetSettings s =
        { exit := false, grayscale := false, recording := false, negative := false,
          blur := 0, rotate := 0, mirrorVertically := 0, mirrorHorizontally := 0,
          canny := 0, sobel := 0, brightess := 0, scale := 1, contrast := 1,
          trackBarValue := 1 } ∧
      keyPressed BACKSPACE s =
        { exit := false, grayscale := false, recording := false, negative := false,
          blur := 0, rotate := 0, mirrorVertically := 0, mirrorHorizontally := 0,
          canny := 0, sobel := 0, brightess := 0, scale := 1, contrast := 1,
          trackBarValue := 1 } ∧
      trackbarCallback 1 (resetSettings s) = resetSettings s := by
  refine ⟨?_, ?_, ?_⟩
  · rw [resetSettings_eq_fresh]; rfl
  · rw [keyPressed_BACKSPACE]; rfl
  · rw [resetSettings_eq_fresh]; rfl

/-! ## Scale (C2, C3) -/

/-- C2: sixteen `,` key events from the fresh record leave `scale = 0`, the 16-bit
wrap of `2^16`: a reachable settings state whose scale is neither a power of two nor at
least 1, whatever the image operators are. -/
theorem scale_wraps_to_zero {Mat : Type} (cv : OpenCV Mat) :
    run cv Settings.fresh (List.replicate 16 (Event.key (ord ','))) =
        { Settings.fresh with scale := 0 } ∧
      (¬ ∃ k : Nat,
        (run cv Settings.fresh (List.replicate 16 (Event.key (ord ',')))).scale = 2 ^ k) ∧
      ¬ 1 ≤ (run cv Settings.fresh (List.replicate 16 (Event.key (ord ',')))).scale := by
  have h : run cv Settings.fresh (List.replicate 16 (Event.key (ord ','))) =
      { Settings.fresh with scale := 0 } := by
    simp [run, step, List.replicate, keyPressed_comma, Settings.fresh]
  refine ⟨h, ?_, ?_⟩
  · rw [h]
    rintro ⟨k, hk⟩
    exact absurd hk.symm (by positivity)
  · rw [h]
    decide

/-- C3: at `scale = 32768`, the state fifteen `,` events lead to from the fresh record,
one more `,` event leaves `scale = 0` and not twice the old scale. -/
theorem comma_does_not_double_at_32768 :
    loop 15 (keyPressed (ord ',')) Settings.fresh = { Settings.fresh with scale := 32768 } ∧
      (keyPressed (ord ',') { Settings.fresh with scale := 32768 }).scale = 0 ∧
      (keyPressed (ord ',') { Settings.fresh with scale := 32768 }).scale ≠ 2 * 32768 := by
  refine ⟨?_, ?_, ?_⟩
  · simp [loop, keyPressed_comma, Settings.fresh]
  · simp [keyPressed_comma]
  · simp [keyPressed_comma]

/-! ## Saturating pass-counters (C4, C5) -/

/-- C4: for each of the five bounded pass-counters and every settings state, the
lowercase key event changes nothing of the record when the counter is 255, and the
uppercase key event changes nothing of it when the counter is 0 (blur b/B, canny c/C,
sobel s/S, mirrorHorizontally k/K, mirrorVertically l/L). -/
theorem counter_keys_noop_at_bounds (s : Settings) :
    (s.blur = 255 → keyPressed (ord 'b') s = s) ∧
      (s.blur = 0 → keyPressed (ord 'B') s = s) ∧
      (s.canny = 255 → keyPressed (ord 'c') s = s) ∧
      (s.canny = 0 → keyPressed (ord 'C') s = s) ∧
      (s.sobel = 255 → keyPressed (ord 's') s = s) ∧
      (s.sobel = 0 → keyPressed (ord 'S') s = s) ∧
      (s.mirrorHorizontally = 255 → keyPressed (ord 'k') s = s) ∧
      (s.mirrorHorizontally = 0 → keyPressed (ord 'K') s = s) ∧
      (s.mirrorVertically = 255 → keyPressed (ord 'l') s = s) ∧
      (s.mirrorVertically = 0 → keyPressed (ord 'L') s = s) := by
  cases s
  refine ⟨?_, ?_, ?_, ?_, ?_, ?_, ?_, ?_, ?_, ?_⟩ <;> intro h <;>
    simp [keyPressed, processDoUndoEffect_ushort_eq, processDoUndoEffect_int_eq,
      processDoUndoEffect_bool_eq, ord, toupper, tolower, BACKSPACE, ESC] at h ⊢ <;>
    simp [h]

/-- Witness of C4: with every counter at 255 the five lowercase keys are no-ops, and on
the fresh record, every counter 0, so is an uppercase key. -/
theorem counter_keys_noop_at_bounds_witness :
    keyPressed (ord 'b')
        { Settings.fresh with
          blur := 255, canny := 255, sobel := 255, mirrorHorizontally := 255,
          mirrorVertically := 255 } =
      { Settings.fresh with
        blur := 255, canny := 255, sobel := 255, mirrorHorizontally := 255,
        mirrorVertically := 255 } ∧
    keyPressed (ord 'L') Settings.fresh = Settings.fresh :=
  ⟨(counter_keys_noop_at_bounds _).1 rfl,
    (counter_keys_noop_at_bounds Settings.fresh).2.2.2.2.2.2.2.2.2 rfl⟩

/-- C5: after any finite sequence of key events, slider notifications and pipeline runs
from the fresh record, each of blur, canny, sobel, mirrorHorizontally and
mirrorVertically is at most 255 (and, being unsigned, at least 0): none has wrapped in
its 16 bits or passed 255. -/
theorem counters_stay_in_range {Mat : Type} (cv : OpenCV Mat) (events : List (Event Mat)) :
    (run cv Settings.fresh events).blur ≤ 255 ∧
      (run cv Settings.fresh events).canny ≤ 255 ∧
      (run cv Settings.fresh events).sobel ≤ 255 ∧
      (run cv Settings.fresh events).mirrorHorizontally ≤ 255 ∧
      (run cv Settings.fresh events).mirrorVertically ≤ 255 := by
  refine run_invariant cv Settings.countersInRange (fun _ => True) ?_ events
    (fun _ _ => trivial) Settings.fresh (by simp [Settings.countersInRange, Settings.fresh])
  intro s e _ hs
  cases e with
  | key code => exact keyPressed_countersInRange code s hs
  | slider value => exact hs
  | frame image =>
    simp only [step, processFrame_settings]
    exact hs

/-! ## Rotation, tone commands and unbound keys (C6, C7, C8) -/

/-- C6, as stated, fails: 2147483647 key events r from the fresh record lead to
`rotate = 2147483647`, the largest `int`, and there one more key event r leaves
`rotate = -2147483648`, not `rotate + 1`. -/
theorem rotate_wraps_at_int_max :
    loop 2147483647 (keyPressed (ord 'r')) Settings.fresh =
        { Settings.fresh with rotate := 2147483647 } ∧
      (keyPressed (ord 'r') { Settings.fresh with rotate := 2147483647 }).rotate =
        -2147483648 ∧
      (keyPressed (ord 'r') { Settings.fresh with rotate := 2147483647 }).rotate ≠
        ({ Settings.fresh with rotate := 2147483647 } : Settings).rotate + 1 := by
  refine ⟨?_, ?_, ?_⟩
  · have h := loop_r_rotate 2147483647 (le_refl _)
    simpa using h
  · simp [keyPressed_r, wrapInt]
  · simp [keyPressed_r, wrapInt]

/-- C6, amended: for every settings state `s`, the key event R leaves
`rotate = s.rotate - 1` when `s.rotate` is above the smallest `int` -2147483648, the key
event r leaves `rotate = s.rotate + 1` when `s.rotate` is below the largest `int`
2147483647, and at every `s`, the two ends among them, both leave `recording = false`,
every field other than `rotate` and `recording` as in `s`, and in `rotate` the 32-bit wrap
of `s.rotate - 1`, of `s.rotate + 1`: no clamp is applied. -/
theorem rotate_keys_stop_recording (s : Settings) :
    (-2147483648 < s.rotate → s.rotate ≤ 2147483647 →
        keyPressed (ord 'R') s = { s with rotate := s.rotate - 1, recording := false }) ∧
      (-2147483648 ≤ s.rotate → s.rotate < 2147483647 →
        keyPressed (ord 'r') s = { s with rotate := s.rotate + 1, recording := false }) ∧
      keyPressed (ord 'R') s = { s with rotate := wrapInt (s.rotate - 1), recording := false } ∧
      keyPressed (ord 'r') s = { s with rotate := wrapInt (s.rotate + 1), recording := false } := by
  refine ⟨fun h1 h2 => ?_, fun h1 h2 => ?_, keyPressed_R s, keyPressed_r s⟩
  · rw [keyPressed_R, wrapInt_of_inRange _ (by omega) (by omega)]
  · rw [keyPressed_r, wrapInt_of_inRange _ (by omega) (by omega)]

/-- Witness of the amended C6: while recording with `rotate = 5`, the key event R leaves
`rotate = 4` and the key event r leaves `rotate = 6`, both with recording off. -/
theorem rotate_keys_stop_recording_witness :
    keyPressed (ord 'R') { Settings.fresh with rotate := 5, recording := true } =
        { Settings.fresh with rotate := 4 } ∧
      keyPressed (ord 'r') { Settings.fresh with rotate := 5, recording := true } =
        { Settings.fresh with rotate := 6 } :=
  ⟨(rotate_keys_stop_recording { Settings.fresh with rotate := 5, recording := true }).1
      (by decide) (by decide),
    (rotate_keys_stop_recording { Settings.fresh with rotate := 5, recording := true }).2.1
      (by decide) (by decide)⟩

/-- C7: for every settings state `s` with intensity value `v = s.trackBarValue`: the key
event `[` leaves `brightess = v`; the key event `]` leaves `brightess = -v`, for every
`int` value `v` other than the smallest, -2147483648; the key event `;` leaves
`contrast = v`, for every `int` value `v ≥ 0`; in each case every other field,
trackBarValue among them, is as in `s`. Every state a run leads to has
`1 ≤ v ≤ 2147483647` (`run_trackBarValue_range`), inside all three ranges. -/
theorem tone_keys (s : Settings) :
    keyPressed (ord '[') s = { s with brightess := s.trackBarValue } ∧
      (-2147483648 < s.trackBarValue → s.trackBarValue ≤ 2147483647 →
        keyPressed (ord ']') s = { s with brightess := -s.trackBarValue }) ∧
      (0 ≤ s.trackBarValue → s.trackBarValue ≤ 2147483647 →
        keyPressed (ord ';') s = { s with contrast := s.trackBarValue.toNat } ∧
          ((keyPressed (ord ';') s).contrast : Int) = s.trackBarValue) := by
  refine ⟨keyPressed_bracketOpen s, fun h1 h2 => ?_, fun h0 h1 => ?_⟩
  · rw [keyPressed_bracketClose, wrapInt_of_inRange _ (by omega) (by omega)]
  · have hmod : s.trackBarValue % 4294967296 = s.trackBarValue :=
      Int.emod_eq_of_lt h0 (by omega)
    rw [keyPressed_semicolon, hmod]
    exact ⟨rfl, Int.toNat_of_nonneg h0⟩

/-- Witness of C7: at intensity 200 the key event `]` leaves brightess -200 and the key
event `;` leaves contrast 200. -/
theorem tone_keys_witness :
    keyPressed (ord ']') { Settings.fresh with trackBarValue := 200 } =
        { Settings.fresh with trackBarValue := 200, brightess := -200 } ∧
      keyPressed (ord ';') { Settings.fresh with trackBarValue := 200 } =
        { Settings.fresh with trackBarValue := 200, contrast := 200 } ∧
      ((keyPressed (ord ';') { Settings.fresh with trackBarValue := 200 }).contrast : Int) = 200 :=
  ⟨(tone_keys { Settings.fresh with trackBarValue := 200 }).2.1 (by decide) (by decide),
    (tone_keys { Settings.fresh with trackBarValue := 200 }).2.2 (by decide) (by decide)⟩

/-- The statement of C7 on every reachable state: after any finite sequence of key events,
pipeline runs and slider notifications from the fresh record, the slider reporting `int`
positions, the three keys act on the state `s` reached, with `v = s.trackBarValue`, as
`brightess := v`, `brightess := -v` and `contrast := v`, nothing else changed. -/
theorem tone_keys_on_runs {Mat : Type} (cv : OpenCV Mat) (events : List (Event Mat))
    (h : ∀ e ∈ events, Event.sliderAtMost 2147483647 e) :
    keyPressed (ord '[') (run cv Settings.fresh events) =
        { run cv Settings.fresh events with
          brightess := (run cv Settings.fresh events).trackBarValue } ∧
      keyPressed (ord ']') (run cv Settings.fresh events) =
        { run cv Settings.fresh events with
          brightess := -(run cv Settings.fresh events).trackBarValue } ∧
      keyPressed (ord ';') (run cv Settings.fresh events) =
        { run cv Settings.fresh events with
          contrast := (run cv Settings.fresh events).trackBarValue.toNat } ∧
      (((keyPressed (ord ';') (run cv Settings.fresh events)).contrast : Nat) : Int) =
        (run cv Settings.fresh events).trackBarValue := by
  obtain ⟨h1, h2⟩ := run_trackBarValue_range cv events h
  have hmod : (run cv Settings.fresh events).trackBarValue % 4294967296 =
      (run cv Settings.fresh events).trackBarValue := Int.emod_eq_of_lt (by omega) (by omega)
  refine ⟨keyPressed_bracketOpen _, ?_, ?_, ?_⟩
  · rw [keyPressed_bracketClose, wrapInt_of_inRange _ (by omega) (by omega)]
  · rw [keyPressed_semicolon, hmod]
  · rw [keyPressed_semicolon, hmod]
    exact Int.toNat_of_nonneg (by omega)

/-- C8: for every key code other than b, B, g, G, r, R, c, C, s, S, k, K, l, L, n, N,
`[`, `]`, `;`, `,`, space, BACKSPACE (8) and ESC (27), the "no key" code -1 among them,
`keyPressed` leaves every field of the settings as it was. -/
theorem unbound_key_noop (key : Int) (s : Settings)
    (h : key ∉ [ord 'b', ord 'B', ord 'g', ord 'G', ord 'r', ord 'R', ord 'c', ord 'C',
      ord 's', ord 'S', ord 'k', ord 'K', ord 'l', ord 'L', ord 'n', ord 'N', ord '[',
      ord ']', ord ';', ord ',', ord ' ', BACKSPACE, ESC]) :
    keyPressed key s = s := by
  simp [ord, BACKSPACE, ESC] at h
  obtain ⟨hb, hB, hg, hG, hr, hR, hc, hC, hs, hS, hk, hK, hl, hL, hn, hN, h1, h2, h3, h4,
    h5, h6, h7⟩ := h
  have hlow : tolower key ≠ 114 ∧ tolower key ≠ 91 ∧ tolower key ≠ 93 ∧ tolower key ≠ 59 ∧
      tolower key ≠ 44 ∧ tolower key ≠ 32 ∧ tolower key ≠ 8 ∧ tolower key ≠ 27 := by
    have hA : ord 'A' = 65 := rfl
    have hZ : ord 'Z' = 90 := rfl
    unfold tolower
    rw [hA, hZ]
    split_ifs <;> omega
  obtain ⟨l1, l2, l3, l4, l5, l6, l7, l8⟩ := hlow
  simp [keyPressed, processDoUndoEffect_ushort_eq, processDoUndoEffect_int_eq,
    processDoUndoEffect_bool_eq, ord, toupper, BACKSPACE, ESC, *]

/-- Witness of C8: the "no key" code -1 is no command code and changes nothing. -/
theorem unbound_key_noop_witness :
    keyPressed (-1) { Settings.fresh with recording := true, blur := 3 } =
      { Settings.fresh with recording := true, blur := 3 } :=
  unbound_key_noop (-1) _ (by decide)

/-! ## Intensity level and the settings effect of the pipeline (C9, C10) -/

/-- C9: after any finite sequence of key events, pipeline runs and slider notifications
from the fresh record, the slider reporting no position above 255 (any integer below 1
is allowed and is coerced to 1), `trackBarValue` lies in the range 1 to 255. -/
theorem intensity_in_range {Mat : Type} (cv : OpenCV Mat) (events : List (Event Mat))
    (h : ∀ e ∈ events, Event.sliderAtMost 255 e) :
    1 ≤ (run cv Settings.fresh events).trackBarValue ∧
      (run cv Settings.fresh events).trackBarValue ≤ 255 := by
  refine run_invariant cv (fun s => 1 ≤ s.trackBarValue ∧ s.trackBarValue ≤ 255)
    (Event.sliderAtMost 255) ?_ events h Settings.fresh (by simp [Settings.fresh])
  intro s e he hs
  cases e with
  | key code =>
    have hk := keyPressed_trackBarValue code s
    simp only [step]
    omega
  | slider value =>
    simp only [Event.sliderAtMost] at he
    simp only [step, trackbarCallback]
    split_ifs <;> omega
  | frame image =>
    simp only [step, processFrame_settings]
    split_ifs <;> omega

/-- Witness of C9: the slider at 254, one `b` key event and one pipeline run, whose blur
pass coerces the even 254, leave `trackBarValue = 255`, inside the range. -/
theorem intensity_in_range_witness :
    (run (OpenCV.still Unit) Settings.fresh
        [Event.slider 254, Event.key (ord 'b'), Event.frame ()]).trackBarValue = 255 ∧
      1 ≤ (run (OpenCV.still Unit) Settings.fresh
        [Event.slider 254, Event.key (ord 'b'), Event.frame ()]).trackBarValue ∧
      (run (OpenCV.still Unit) Settings.fresh
        [Event.slider 254, Event.key (ord 'b'), Event.frame ()]).trackBarValue ≤ 255 :=
  ⟨by decide,
    intensity_in_range (OpenCV.still Unit)
      [Event.slider 254, Event.key (ord 'b'), Event.frame ()]
      (by simp [Event.sliderAtMost])⟩

/-- C10: for every frame, every settings state `s` and whatever the image operators are,
`processFrame` leaves every settings field other than `trackBarValue` as in `s`; it leaves
the whole record as in `s` when `s.blur = 0` or `s.trackBarValue` is odd; and otherwise
(`s.blur ≠ 0`, `s.trackBarValue` even) the one change is `trackBarValue` raised by 1, the
coercion of the blur kernel size. -/
theorem processFrame_settings_effect {Mat : Type} (cv : OpenCV Mat) (frame : Mat)
    (s : Settings) :
    (processFrame cv frame s).2 =
        { s with trackBarValue := (processFrame cv frame s).2.trackBarValue } ∧
      (s.blur = 0 ∨ Odd s.trackBarValue → (processFrame cv frame s).2 = s) ∧
      (s.blur ≠ 0 → Even s.trackBarValue →
        (processFrame cv frame s).2 = { s with trackBarValue := s.trackBarValue + 1 }) := by
  rw [processFrame_settings]
  refine ⟨rfl, ?_, ?_⟩
  · rintro (h | h)
    · rw [if_pos h]
    · have hodd : ¬ s.trackBarValue % 2 = 0 := by
        rw [Int.odd_iff] at h
        omega
      rw [if_neg hodd, ite_self]
  · intro hb he
    have heven : s.trackBarValue % 2 = 0 := Int.even_iff.mp he
    rw [if_neg hb, if_pos heven]

/-- Witness of C10: with two blur passes and the odd intensity 5 a pipeline run leaves
the settings as they were; with the even intensity 4 it leaves 5. -/
theorem processFrame_settings_effect_witness :
    (processFrame (OpenCV.still Unit) () { Settings.fresh with blur := 2, trackBarValue := 5 }).2 =
        { Settings.fresh with blur := 2, trackBarValue := 5 } ∧
      (processFrame (OpenCV.still Unit) () { Settings.fresh with blur := 2, trackBarValue := 4 }).2 =
        { Settings.fresh with blur := 2, trackBarValue := 5 } :=
  ⟨(processFrame_settings_effect (OpenCV.still Unit) ()
      { Settings.fresh with blur := 2, trackBarValue := 5 }).2.1 (Or.inr (by decide)),
    (processFrame_settings_effect (OpenCV.still Unit) ()
      { Settings.fresh with blur := 2, trackBarValue := 4 }).2.2 (by decide) (by decide)⟩

/-! ## Undo keys and the recording toggle (C16, C17) -/

/-- C16, as stated, fails: at the ceiling `blur = 255` the key event b is a no-op, so the
key event B after it leaves 254 and not the 255 the settings started with. -/
theorem undo_at_ceiling_loses_a_pass :
    keyPressed (ord 'B') (keyPressed (ord 'b') { Settings.fresh with blur := 255 }) =
        { Settings.fresh with blur := 254 } ∧
      keyPressed (ord 'B') (keyPressed (ord 'b') { Settings.fresh with blur := 255 }) ≠
        { Settings.fresh with blur := 255 } := by
  decide

/-- C16, amended: for every settings state `s` whose blur counter is neither at the ceiling
255 nor at the top 65535 of its 16 bits, the key event b followed by the key event B
leaves exactly `s`, while at 255 the pair leaves `blur = 254`; likewise for c, C and
canny, and for s, S and sobel. -/
theorem undo_restores_below_ceiling (s : Settings) :
    (s.blur ≠ 255 → s.blur < 65535 → keyPressed (ord 'B') (keyPressed (ord 'b') s) = s) ∧
      (s.canny ≠ 255 → s.canny < 65535 →
        keyPressed (ord 'C') (keyPressed (ord 'c') s) = s) ∧
      (s.sobel ≠ 255 → s.sobel < 65535 →
        keyPressed (ord 'S') (keyPressed (ord 's') s) = s) ∧
      (s.blur = 255 →
        keyPressed (ord 'B') (keyPressed (ord 'b') s) = { s with blur := 254 }) ∧
      (s.canny = 255 →
        keyPressed (ord 'C') (keyPressed (ord 'c') s) = { s with canny := 254 }) ∧
      (s.sobel = 255 →
        keyPressed (ord 'S') (keyPressed (ord 's') s) = { s with sobel := 254 }) := by
  cases s
  refine ⟨?_, ?_, ?_, ?_, ?_, ?_⟩
  · intro h1 h2
    simp [keyPressed, processDoUndoEffect_ushort_eq, processDoUndoEffect_int_eq,
      processDoUndoEffect_bool_eq, ord, toupper, tolower, BACKSPACE, ESC] at h1 h2 ⊢
    simp [h1]
    split_ifs <;> omega
  · intro h1 h2
    simp [keyPressed, processDoUndoEffect_ushort_eq, processDoUndoEffect_int_eq,
      processDoUndoEffect_bool_eq, ord, toupper, tolower, BACKSPACE, ESC] at h1 h2 ⊢
    simp [h1]
    split_ifs <;> omega
  · intro h1 h2
    simp [keyPressed, processDoUndoEffect_ushort_eq, processDoUndoEffect_int_eq,
      processDoUndoEffect_bool_eq, ord, toupper, tolower, BACKSPACE, ESC] at h1 h2 ⊢
    simp [h1]
    split_ifs <;> omega
  · intro h
    simp [keyPressed, processDoUndoEffect_ushort_eq, processDoUndoEffect_int_eq,
      processDoUndoEffect_bool_eq, ord, toupper, tolower, BACKSPACE, ESC] at h ⊢
    simp [h]
  · intro h
    simp [keyPressed, processDoUndoEffect_ushort_eq, processDoUndoEffect_int_eq,
      processDoUndoEffect_bool_eq, ord, toupper, tolower, BACKSPACE, ESC] at h ⊢
    simp [h]
  · intro h
    simp [keyPressed, processDoUndoEffect_ushort_eq, processDoUndoEffect_int_eq,
      processDoUndoEffect_bool_eq, ord, toupper, tolower, BACKSPACE, ESC] at h ⊢
    simp [h]

/-- Witness of the amended C16: from `blur = 7` the keys b, B lead back to `blur = 7`. -/
theorem undo_restores_below_ceiling_witness :
    keyPressed (ord 'B') (keyPressed (ord 'b') { Settings.fresh with blur := 7 }) =
      { Settings.fresh with blur := 7 } :=
  (undo_restores_below_ceiling { Settings.fresh with blur := 7 }).1 (by decide) (by decide)

/-- C17: for every settings state `s`, the space key event leaves `recording` negated and
every other field as in `s`, and two space key events in a row leave exactly `s`. -/
theorem space_toggles_recording (s : Settings) :
    keyPressed (ord ' ') s = { s with recording := !s.recording } ∧
      keyPressed (ord ' ') (keyPressed (ord ' ') s) = s := by
  have h : ∀ t : Settings, keyPressed (ord ' ') t = { t with recording := !t.recording } := by
    intro t
    simp [keyPressed, processDoUndoEffect_ushort_eq, processDoUndoEffect_int_eq,
      processDoUndoEffect_bool_eq, ord, toupper, tolower, BACKSPACE, ESC]
  refine ⟨h s, ?_⟩
  rw [h, h]
  cases s
  simp

/-! ## Idempotence of the blur coercion (C11) -/

/-- C11: for every frame `f`, whatever the image operators are, and every settings state
`s` with `s.blur ≥ 1` and even `s.trackBarValue = v`, one run of `processFrame` leaves
`trackBarValue = v + 1` and every other field as in `s`, and a second run on the same
frame `f` with the settings the first run left returns the same output frame and the
same settings as the first run. -/
theorem blur_coercion_idempotent {Mat : Type} (cv : OpenCV Mat) (f : Mat) (s : Settings)
    (hb : 1 ≤ s.blur) (he : Even s.trackBarValue) :
    (processFrame cv f s).2 = { s with trackBarValue := s.trackBarValue + 1 } ∧
      processFrame cv f (processFrame cv f s).2 = processFrame cv f s := by
  have heven : s.trackBarValue % 2 = 0 := Int.even_iff.mp he
  have hodd : ¬ (s.trackBarValue + 1) % 2 = 0 := by omega
  have hb0 : ¬ s.blur = 0 := by omega
  have h2 : (processFrame cv f s).2 = { s with trackBarValue := s.trackBarValue + 1 } := by
    rw [processFrame_settings, if_neg hb0, if_pos heven]
  refine ⟨h2, ?_⟩
  rw [h2]
  simp [processFrame, loop_blurPass_eq, heven, hodd, hb0]

/-- Witness of C11: with two blur passes and intensity 4 one run leaves intensity 5, and
a second run from there repeats the first. -/
theorem blur_coercion_idempotent_witness :
    (processFrame (OpenCV.still Unit) () { Settings.fresh with blur := 2, trackBarValue := 4 }).2 =
        { Settings.fresh with blur := 2, trackBarValue := 5 } ∧
      processFrame (OpenCV.still Unit) ()
          (processFrame (OpenCV.still Unit) ()
            { Settings.fresh with blur := 2, trackBarValue := 4 }).2 =
        processFrame (OpenCV.still Unit) ()
          { Settings.fresh with blur := 2, trackBarValue := 4 } :=
  blur_coercion_idempotent (OpenCV.still Unit) ()
    { Settings.fresh with blur := 2, trackBarValue := 4 } (by decide) (by decide)

/-! ## Tone values and geometry keys (C19, C20) -/

/-- C19: after any finite sequence of key events, pipeline runs and slider notifications
from the fresh record, the slider reporting no position above 255, `brightess` lies in the
range -255 to 255 and `contrast` in the range 1 to 255. -/
theorem tone_values_in_range {Mat : Type} (cv : OpenCV Mat) (events : List (Event Mat))
    (h : ∀ e ∈ events, Event.sliderAtMost 255 e) :
    -255 ≤ (run cv Settings.fresh events).brightess ∧
      (run cv Settings.fresh events).brightess ≤ 255 ∧
      1 ≤ (run cv Settings.fresh events).contrast ∧
      (run cv Settings.fresh events).contrast ≤ 255 := by
  have hinv := run_invariant cv
    (fun s => 1 ≤ s.trackBarValue ∧ s.trackBarValue ≤ 255 ∧ -255 ≤ s.brightess ∧
      s.brightess ≤ 255 ∧ 1 ≤ s.contrast ∧ s.contrast ≤ 255)
    (Event.sliderAtMost 255) ?_ events h Settings.fresh (by simp [Settings.fresh])
  · exact hinv.2.2
  · intro s e he hs
    cases e with
    | key code => exact keyPressed_toneInRange code s hs
    | slider value =>
      simp only [Event.sliderAtMost] at he
      simp only [step, trackbarCallback]
      split_ifs <;> omega
    | frame image =>
      simp only [step, processFrame_settings]
      split_ifs <;> omega

/-- Witness of C19: the slider at 255, then the keys `]` and `;`, leave `brightess = -255`
and `contrast = 255`, the ends of the two ranges. -/
theorem tone_values_in_range_witness :
    (run (OpenCV.still Unit) Settings.fresh
        [Event.slider 255, Event.key (ord ']'), Event.key (ord ';')]).brightess = -255 ∧
      (run (OpenCV.still Unit) Settings.fresh
        [Event.slider 255, Event.key (ord ']'), Event.key (ord ';')]).contrast = 255 ∧
      (-255 ≤ (run (OpenCV.still Unit) Settings.fresh
          [Event.slider 255, Event.key (ord ']'), Event.key (ord ';')]).brightess ∧
        (run (OpenCV.still Unit) Settings.fresh
          [Event.slider 255, Event.key (ord ']'), Event.key (ord ';')]).brightess ≤ 255 ∧
        1 ≤ (run (OpenCV.still Unit) Settings.fresh
          [Event.slider 255, Event.key (ord ']'), Event.key (ord ';')]).contrast ∧
        (run (OpenCV.still Unit) Settings.fresh
          [Event.slider 255, Event.key (ord ']'), Event.key (ord ';')]).contrast ≤ 255) :=
  ⟨by decide, by decide,
    tone_values_in_range (OpenCV.still Unit)
      [Event.slider 255, Event.key (ord ']'), Event.key (ord ';')]
      (by simp [Event.sliderAtMost])⟩

/-- C20: for every settings state `s` and every key code, if the state `keyPressed` leaves
differs from `s` in `rotate` or in `scale`, its `recording` is false; put the other way
round, if `recording` is true after the key event, `rotate` and `scale` are as before
it. -/
theorem geometry_keys_stop_recording (key : Int) (s : Settings) :
    ((keyPressed key s).rotate ≠ s.rotate ∨ (keyPressed key s).scale ≠ s.scale →
        (keyPressed key s).recording = false) ∧
      ((keyPressed key s).recording = true →
        (keyPressed key s).rotate = s.rotate ∧ (keyPressed key s).scale = s.scale) := by
  rcases keyPressed_geometry key s with h | ⟨h1, h2⟩
  · exact ⟨fun _ => h, fun ht => by rw [h] at ht; exact absurd ht (by decide)⟩
  · exact ⟨fun hne => by
      rcases hne with hne | hne
      · exact absurd h1 hne
      · exact absurd h2 hne, fun _ => ⟨h1, h2⟩⟩

/-- Witness of C20: while recording, the key `,` changes the scale and stops the
recording, and the key b changes neither rotate nor scale and leaves it on. -/
theorem geometry_keys_stop_recording_witness :
    (keyPressed (ord ',') { Settings.fresh with recording := true }).recording = false ∧
      ((keyPressed (ord 'b') { Settings.fresh with recording := true }).rotate = 0 ∧
        (keyPressed (ord 'b') { Settings.fresh with recording := true }).scale = 1) :=
  ⟨(geometry_keys_stop_recording (ord ',') { Settings.fresh with recording := true }).1
      (Or.inr (by decide)),
    (geometry_keys_stop_recording (ord 'b') { Settings.fresh with recording := true }).2
      (by decide)⟩

/-! ## Channel count of the recorded frame (C15) -/

/-- C15: let the image operators keep the channel contract of the OpenCV reference. For
every settings state `s` and every 3-channel frame `f`, the output of `processFrame` has
1 or 3 channels. In a turn of the main loop, for every key code, with `out` the output
of `processFrame` on `f` under the settings the key event leaves: when recording is on,
the frame handed to the recorder is `out` itself if `out` has 3 channels, and otherwise
`out` has 1 channel and the frame handed over is `cvtColor(out, COLOR_GRAY2RGB)`, which
has 3 channels; when recording is off no frame is handed over; the settings the turn
leaves are those `processFrame` leaves. -/
theorem recorded_frame_has_three_channels {Mat : Type} (cv : OpenCV Mat)
    (channels : Mat → Nat) (h : ChannelContract cv channels) (s : Settings) (f : Mat)
    (hf : channels f = 3) :
    (channels (processFrame cv f s).1 = 1 ∨ channels (processFrame cv f s).1 = 3) ∧
      ∀ key : Int,
        (mainTurn cv channels key f s).2 = (processFrame cv f (keyPressed key s)).2 ∧
        ((keyPressed key s).recording = true →
          (channels (processFrame cv f (keyPressed key s)).1 = 3 →
            (mainTurn cv channels key f s).1 =
              some (processFrame cv f (keyPressed key s)).1) ∧
          (channels (processFrame cv f (keyPressed key s)).1 ≠ 3 →
            channels (processFrame cv f (keyPressed key s)).1 = 1 ∧
            (mainTurn cv channels key f s).1 =
              some (cv.cvtColor (processFrame cv f (keyPressed key s)).1 .COLOR_GRAY2RGB) ∧
            channels
              (cv.cvtColor (processFrame cv f (keyPressed key s)).1 .COLOR_GRAY2RGB) = 3)) ∧
        ((keyPressed key s).recording = false → (mainTurn cv channels key f s).1 = none) := by
  refine ⟨processFrame_channels cv channels h s f hf, fun key => ?_⟩
  have hrec : (processFrame cv f (keyPressed key s)).2.recording =
      (keyPressed key s).recording := by
    rw [processFrame_settings]
  have hout := processFrame_channels cv channels h (keyPressed key s) f hf
  refine ⟨rfl, fun hon => ⟨fun h3 => ?_, fun hne => ?_⟩, fun hoff => ?_⟩
  · have hnn : ¬ channels (processFrame cv f (keyPressed key s)).1 ≠ 3 := fun c => c h3
    simp only [mainTurn, recorderInput, hrec, hon, if_true, if_neg hnn]
  · have h1 : channels (processFrame cv f (keyPressed key s)).1 = 1 := by
      rcases hout with h1 | h3
      · exact h1
      · exact absurd h3 hne
    refine ⟨h1, ?_, h.cvtColor_GRAY2RGB _ h1⟩
    simp only [mainTurn, recorderInput, hrec, hon, if_true, if_pos hne]
  · simp [mainTurn, recorderInput, hrec, hoff]

/-- Witness of C15: on channel counts, with grayscale and recording on, the pipeline
turns a 3-channel frame into a 1-channel one and the recorder is handed the 3 channels
that `COLOR_GRAY2RGB` makes of it. -/
theorem recorded_frame_has_three_channels_witness :
    (processFrame OpenCV.channelCount 3
        { Settings.fresh with grayscale := true, recording := true }).1 = 1 ∧
      (mainTurn OpenCV.channelCount id (-1) 3
        { Settings.fresh with grayscale := true, recording := true }).1 =
        some (OpenCV.channelCount.cvtColor 1 .COLOR_GRAY2RGB) ∧
      OpenCV.channelCount.cvtColor 1 .COLOR_GRAY2RGB = 3 := by
  have h := recorded_frame_has_three_channels OpenCV.channelCount id channelCount_contract
    { Settings.fresh with grayscale := true, recording := true } 3 rfl
  have hout : (processFrame OpenCV.channelCount 3
      (keyPressed (-1) { Settings.fresh with grayscale := true, recording := true })).1 = 1 := by
    decide
  have hw := ((h.2 (-1)).2.1 (by decide)).2 (by rw [hout]; decide)
  rw [hout] at hw
  exact ⟨by decide, hw.2.1, hw.2.2⟩

/-! ## Pixel content of the pipeline output (C12, C13, C14, C18) -/

/-- C12: for every 8-bit frame `f` and every count `n` (those from 0 to 255 among them),
`processFrame` with `mirrorHorizontally = n` and every other setting at its default
returns `f` itself when `n` is even, and when `n` is odd the frame it returns for
`mirrorHorizontally = 1`, which is `f` with each row reversed once. -/
theorem mirror_parity (luma : Fin 256 → Fin 256 → Fin 256 → Fin 256) (ext : OpenCV Frame)
    (f : Frame) (n : Nat) :
    (Even n →
        (processFrame (OpenCV.pixels luma ext) f
          { Settings.fresh with mirrorHorizontally := n }).1 = f) ∧
      (Odd n →
        (processFrame (OpenCV.pixels luma ext) f
          { Settings.fresh with mirrorHorizontally := n }).1 =
        (processFrame (OpenCV.pixels luma ext) f
          { Settings.fresh with mirrorHorizontally := 1 }).1) ∧
      (processFrame (OpenCV.pixels luma ext) f
          { Settings.fresh with mirrorHorizontally := 1 }).1 = f.mirrorHorizontal := by
  simp only [processFrame_mirror, loop_involution _ mirrorHorizontal_twice]
  refine ⟨fun he => ?_, fun ho => ?_, ?_⟩
  · rw [if_pos (Nat.even_iff.mp he)]
  · have h1 : ¬ n % 2 = 0 := by rw [Nat.odd_iff] at ho; omega
    rw [if_neg h1]
    rfl
  · rfl

/-- Witness of C12: on the sample frame two mirror passes give the frame back and three
passes give what one pass gives. -/
theorem mirror_parity_witness :
    (processFrame (OpenCV.pixels luma601 (OpenCV.still Frame)) Frame.sample
        { Settings.fresh with mirrorHorizontally := 2 }).1 = Frame.sample ∧
      (processFrame (OpenCV.pixels luma601 (OpenCV.still Frame)) Frame.sample
        { Settings.fresh with mirrorHorizontally := 3 }).1 =
      (processFrame (OpenCV.pixels luma601 (OpenCV.still Frame)) Frame.sample
        { Settings.fresh with mirrorHorizontally := 1 }).1 :=
  ⟨(mirror_parity luma601 (OpenCV.still Frame) Frame.sample 2).1 (by decide),
    (mirror_parity luma601 (OpenCV.still Frame) Frame.sample 3).2.1 (by decide)⟩

/-- C13: for every 8-bit frame `f`, of any number of rows and columns, `processFrame`
with `rotate = 4` and with `rotate = -4`, every other setting at its default, returns a
frame equal to `f`: the same rows, columns and channels and the same value at every
position. -/
theorem four_rotations_identity (luma : Fin 256 → Fin 256 → Fin 256 → Fin 256)
    (ext : OpenCV Frame) (f : Frame) :
    (processFrame (OpenCV.pixels luma ext) f { Settings.fresh with rotate := 4 }).1 = f ∧
      (processFrame (OpenCV.pixels luma ext) f { Settings.fresh with rotate := -4 }).1 = f := by
  constructor
  · simp [processFrame, Settings.fresh, loop, OpenCV.pixels, linear_one_zero,
      rotateClockwise_four]
  · simp [processFrame, Settings.fresh, loop, OpenCV.pixels, linear_one_zero,
      rotateCounterclockwise_four]

/-- C14: from the fresh settings and a 3-channel 8-bit frame `f`: after the key event g,
`processFrame` returns a frame of one channel; after the further key event G the settings
are the fresh ones again and `processFrame` returns `f` itself, a 3-channel frame. -/
theorem grayscale_on_then_off (luma : Fin 256 → Fin 256 → Fin 256 → Fin 256)
    (ext : OpenCV Frame) (f : Frame) (h3 : f.channels = 3) :
    (processFrame (OpenCV.pixels luma ext) f (keyPressed (ord 'g') Settings.fresh)).1.channels = 1 ∧
      keyPressed (ord 'G') (keyPressed (ord 'g') Settings.fresh) = Settings.fresh ∧
      (processFrame (OpenCV.pixels luma ext) f
        (keyPressed (ord 'G') (keyPressed (ord 'g') Settings.fresh))).1 = f ∧
      (processFrame (OpenCV.pixels luma ext) f
        (keyPressed (ord 'G') (keyPressed (ord 'g') Settings.fresh))).1.channels = 3 := by
  have hg : keyPressed (ord 'g') Settings.fresh = { Settings.fresh with grayscale := true } := by
    decide
  have hG : keyPressed (ord 'G') (keyPressed (ord 'g') Settings.fresh) = Settings.fresh := by
    decide
  have hid : (processFrame (OpenCV.pixels luma ext) f Settings.fresh).1 = f := by
    simp [processFrame, Settings.fresh, loop, OpenCV.pixels, linear_one_zero]
  refine ⟨?_, hG, ?_, ?_⟩
  · rw [hg]
    simp [processFrame, Settings.fresh, loop, OpenCV.pixels, h3, Frame.linear, Frame.map,
      Frame.gray]
  · rw [hG, hid]
  · rw [hG, hid, h3]

/-- Witness of C14: the sample frame has 3 channels; with grayscale on the pipeline makes
1 channel of them, and after G it hands the sample frame back. -/
theorem grayscale_on_then_off_witness :
    (processFrame (OpenCV.pixels luma601 (OpenCV.still Frame)) Frame.sample
        (keyPressed (ord 'g') Settings.fresh)).1.channels = 1 ∧
      keyPressed (ord 'G') (keyPressed (ord 'g') Settings.fresh) = Settings.fresh ∧
      (processFrame (OpenCV.pixels luma601 (OpenCV.still Frame)) Frame.sample
        (keyPressed (ord 'G') (keyPressed (ord 'g') Settings.fresh))).1 = Frame.sample ∧
      (processFrame (OpenCV.pixels luma601 (OpenCV.still Frame)) Frame.sample
        (keyPressed (ord 'G') (keyPressed (ord 'g') Settings.fresh))).1.channels = 3 :=
  grayscale_on_then_off luma601 (OpenCV.still Frame) Frame.sample rfl

/-- C18: for every 8-bit frame `f` and every settings state with grayscale off, the five
pass-counters and rotate 0 and scale 1, the output of `processFrame` is `f` with every
channel value `p` replaced by `g p`, where `g p` is `t = min 255 (max 0 (p * contrast +
brightess))` when negative is off and `255 - t` when negative is on. -/
theorem tone_then_negative (luma : Fin 256 → Fin 256 → Fin 256 → Fin 256) (ext : OpenCV Frame)
    (f : Frame) (s : Settings) (hg : s.grayscale = false) (hb : s.blur = 0)
    (hr : s.rotate = 0) (hc : s.canny = 0) (hs : s.sobel = 0)
    (hk : s.mirrorHorizontally = 0) (hl : s.mirrorVertically = 0) (hsc : s.scale = 1) :
    ∃ g : Fin 256 → Fin 256,
      (processFrame (OpenCV.pixels luma ext) f s).1 = f.map g ∧
      ∀ p : Fin 256,
        (((g p : Fin 256) : Nat) : Int) =
          if s.negative = true then
            255 - min 255 (max 0 (((p : Nat) : Int) * (s.contrast : Int) + s.brightess))
          else min 255 (max 0 (((p : Nat) : Int) * (s.contrast : Int) + s.brightess)) := by
  by_cases hn : s.negative = true
  · refine ⟨fun p => saturate (((saturate ((p : Nat) * (s.contrast : Int) + s.brightess) : Fin 256) : Nat) * (-1) + 255), ?_, ?_⟩
    · simp [processFrame, hg, hb, hr, hc, hs, hk, hl, hsc, hn, loop, OpenCV.pixels,
        Frame.linear, Frame.map]
    · intro p
      rw [if_pos hn]
      simp only [saturate]
      omega
  · refine ⟨fun p => saturate ((p : Nat) * (s.contrast : Int) + s.brightess), ?_, ?_⟩
    · simp [processFrame, hg, hb, hr, hc, hs, hk, hl, hsc, hn, loop, OpenCV.pixels,
        Frame.linear, Frame.map]
    · intro p
      rw [if_neg hn]
      simp only [saturate]
      omega

/-- Witness of C18: contrast 2, brightess 10 and negative on, on the sample frame. -/
theorem tone_then_negative_witness :
    ∃ g : Fin 256 → Fin 256,
      (processFrame (OpenCV.pixels luma601 (OpenCV.still Frame)) Frame.sample
        { Settings.fresh with contrast := 2, brightess := 10, negative := true }).1 =
        Frame.sample.map g ∧
      ∀ p : Fin 256,
        (((g p : Fin 256) : Nat) : Int) =
          if ({ Settings.fresh with contrast := 2, brightess := 10, negative := true } :
              Settings).negative = true then
            255 - min 255 (max 0 (((p : Nat) : Int) *
              (({ Settings.fresh with contrast := 2, brightess := 10, negative := true } :
                Settings).contrast : Int) +
              ({ Settings.fresh with contrast := 2, brightess := 10, negative := true } :
                Settings).brightess))
          else
            min 255 (max 0 (((p : Nat) : Int) *
              (({ Settings.fresh with contrast := 2, brightess := 10, negative := true } :
                Settings).contrast : Int) +
              ({ Settings.fresh with contrast := 2, brightess := 10, negative := true } :
                Settings).brightess)) :=
  tone_then_negative luma601 (OpenCV.still Frame) Frame.sample
    { Settings.fresh with contrast := 2, brightess := 10, negative := true }
    rfl rfl rfl rfl rfl rfl rfl rfl

end Vizeoshoppi
